import Mathlib

/-!
Verification of the systemd `journalctl` ingestion plugin: the incremental
export-format stream parser (`plugins/systemd/journalctl_parser.go`) and the
cursor-checkpoint / supervisor logic (`plugins/systemd/journalctl_input.go`).

Bytes are modelled as `Nat` (each < 256 on real inputs).  A Go byte slice
`buf` with `len(buf) = cap(buf)` (which this code maintains: `make` and every
reallocation produce full-length slices) is modelled as a size together with
a total lookup function, so that only the bytes a run actually touches are
ever materialised; extracted subslices are materialised as `List Nat`.
Go's `int`/`int64` arithmetic that can go negative is modelled with `Int`;
Go slice expressions, which panic when out of range, are modelled with
`Option` (`none` = runtime panic).
-/

set_option maxRecDepth 4000

namespace Heka

/-- UTF-8 bytes of an ASCII string literal (all our literals are ASCII). -/
def bytes (s : String) : List Nat := s.data.map Char.toNat

/-- The newline delimiter byte. -/
def NL : Nat := 10

/-- The byte for the character separating key and value in a textual field. -/
def EQB : Nat := 61

/-- The Go error values the parser and its caller distinguish:
`io.EOF` and `io.ErrShortBuffer`. -/
inductive GoError
  | eof
  | shortBuffer
deriving DecidableEq, Repr

/-- Modelled from the spec: `message.MAX_RECORD_SIZE`, the configured maximum
record size, is defined in the heka `message` package, which is not among the
source files under study.  The parser definitions below take the maximum as
an explicit parameter; this constant only instantiates the concrete
evaluation theorems, none of whose runs reach the buffer-growth path, so its
exact value does not affect them. -/
def MAX_RECORD_SIZE : Nat := 64 * 1024

/-- A Go byte slice with `len = cap`: its size and a lookup function
(zero outside the written region, as Go arrays are zero-initialised). -/
structure ByteArr where
  size : Nat
  get : Nat → Nat

/-- `make([]byte, n)`: `n` zero bytes. -/
def ByteArr.make (n : Nat) : ByteArr := ⟨n, fun _ => 0⟩

/-- `copy(a[off:], data)`: overwrite `data.length` bytes starting at `off`.
(Callers below always have `off + data.length ≤ a.size`.) -/
def ByteArr.write (a : ByteArr) (off : Nat) (data : List Nat) : ByteArr :=
  ⟨a.size, fun i => if off ≤ i ∧ i < off + data.length then data.getD (i - off) 0 else a.get i⟩

/-- Materialise `a[lo:hi]` as a byte list (callers check the bounds). -/
def ByteArr.slice (a : ByteArr) (lo hi : Nat) : List Nat :=
  (List.range (hi - lo)).map (fun i => a.get (lo + i))

/-- A Go slice expression `a[lo:hi]`: defined only when `lo ≤ hi ≤ len a`,
otherwise a runtime panic (`none`). -/
def goSlice (a : ByteArr) (lo hi : Nat) : Option (List Nat) :=
  if lo ≤ hi ∧ hi ≤ a.size then some (a.slice lo hi) else none

/-- Reallocation to `newSize ≥ size`: old contents kept, zero-extended
(`newSlice := make([]byte, size); copy(newSlice, s.buf)`). -/
def ByteArr.grow (a : ByteArr) (newSize : Nat) : ByteArr :=
  ⟨newSize, fun i => if i < a.size then a.get i else 0⟩

/-- State of `journalCtlStreamParserBuffer` (journalctl_parser.go:50-57).
`errStr` and `parseMode` are declared in the source but never used. -/
structure journalCtlStreamParserBuffer where
  buf : ByteArr
  readPos : Nat
  scanPos : Nat
  needData : Bool
  errStr : String := ""
  parseMode : Nat := 0

/-- `newJournalCtlStreamParserBuffer` (journalctl_parser.go:59-64). -/
def newJournalCtlStreamParserBuffer : journalCtlStreamParserBuffer :=
  { buf := ByteArr.make (1024 * 8), readPos := 0, scanPos := 0, needData := true }

/-- `GetRemainingData` (journalctl_parser.go:66-73): return
`buf[scanPos:readPos]` when nonempty, then reset both cursors. -/
def GetRemainingData (s : journalCtlStreamParserBuffer) :
    List Nat × journalCtlStreamParserBuffer :=
  let record :=
    if s.readPos - s.scanPos > 0 then s.buf.slice s.scanPos s.readPos else []
  (record, { s with scanPos := 0, readPos := 0 })

/-- `SetMinimumBufferSize` (journalctl_parser.go:75-82): grow the backing
slice to `size`, keeping existing contents, when it is smaller. -/
def SetMinimumBufferSize (s : journalCtlStreamParserBuffer) (size : Nat) :
    journalCtlStreamParserBuffer :=
  if s.buf.size < size then { s with buf := s.buf.grow size } else s

/-- The byte source feeding the parser: a queue of pending chunks.  A `Read`
into a destination of size `space` delivers up to `space` bytes from the head
chunk (the remainder of a partially taken chunk stays queued); an empty queue
yields `io.EOF`.  This models an `io.Reader` whose data arrives at arbitrary
chunk boundaries. -/
abbrev Chunks := List (List Nat)

/-- One `reader.Read(p)` with `p` of length `space`: delivered bytes,
remaining source, error. -/
def readerRead (chunks : Chunks) (space : Nat) : List Nat × Chunks × Option GoError :=
  match chunks with
  | [] => ([], [], some .eof)
  | c :: rest =>
    let taken := c.take space
    let rem := c.drop space
    (taken, if rem.isEmpty then rest else rem :: rest, none)

/-- Result of `journalCtlStreamParserBuffer.read`: updated buffer state,
remaining source, and the byte count and error returned by the call. -/
structure ReadResult where
  s : journalCtlStreamParserBuffer
  chunks : Chunks
  n : Nat
  err : Option GoError

/-- The trailing `reader.Read(s.buf[s.readPos:])` of `read`
(journalctl_parser.go:109): copy the delivered bytes into the buffer at
`readPos`. -/
def doRead (s : journalCtlStreamParserBuffer) (chunks : Chunks) : ReadResult :=
  let space := s.buf.size - s.readPos
  let r := readerRead chunks space
  let data := r.1
  ⟨{ s with buf := s.buf.write s.readPos data }, r.2.1, data.length, r.2.2⟩

/-- `journalCtlStreamParserBuffer.read` (journalctl_parser.go:84-111):
grow by doubling capped at the maximum record size, or compact, before
reading; when the buffer is at maximum capacity and completely full with
`scanPos = 0`, reset both cursors and return `(cap, io.ErrShortBuffer)`
without reading. -/
def bufRead (maxRecordSize : Nat) (s : journalCtlStreamParserBuffer) (chunks : Chunks) :
    ReadResult :=
  if s.buf.size - s.readPos ≤ 1024 * 4 then
    if s.scanPos = 0 then
      let newSize := s.buf.size * 2
      if newSize > maxRecordSize then
        if s.buf.size = maxRecordSize then
          if s.readPos = s.buf.size then
            ⟨{ s with scanPos := 0, readPos := 0 }, chunks, s.buf.size, some .shortBuffer⟩
          else
            doRead s chunks
        else
          doRead (SetMinimumBufferSize s maxRecordSize) chunks
      else
        doRead (SetMinimumBufferSize s newSize) chunks
    else
      -- reclaim the space at the beginning of the buffer:
      -- copy(s.buf, s.buf[s.scanPos:s.readPos])
      let k := s.readPos - s.scanPos
      let compacted := s.buf.write 0 (s.buf.slice s.scanPos s.readPos)
      doRead { s with buf := compacted, readPos := k, scanPos := 0 } chunks
  else
    doRead s chunks

/-- `JournalCtlParser` (journalctl_parser.go:114-117): the stream-parser
buffer plus the line delimiter byte. -/
structure JournalCtlParser where
  buffer : journalCtlStreamParserBuffer
  delimiter : Nat

/-- `NewJournalCtlParser` (journalctl_parser.go:119-124). -/
def NewJournalCtlParser : JournalCtlParser :=
  { buffer := newJournalCtlStreamParserBuffer, delimiter := NL }

/-- `findRecord` (journalctl_parser.go:179-187): locate the first delimiter
in the unconsumed window; on success the record includes the delimiter. -/
def findRecord (delimiter : Nat) (buf : List Nat) : Nat × List Nat :=
  match buf.findIdx? (fun b => b = delimiter) with
  | none => (0, [])
  | some n => (n + 1, buf.take (n + 1))

/-- `strings.SplitN(s, "=", 2)` on the byte level: split at the first `=` if
any; otherwise the one-element list holding the whole input. -/
def splitN2 (l : List Nat) (sep : Nat) : List (List Nat) :=
  match l.findIdx? (fun b => b = sep) with
  | some i => [l.take i, l.drop (i + 1)]
  | none => [l]

/-- `strings.TrimSuffix(s, "\n")`: drop one trailing newline if present. -/
def trimSuffixNL (l : List Nat) : List Nat :=
  if l.getLast? = some NL then l.dropLast else l

/-- `binary.LittleEndian.Uint64` over an 8-byte slice. -/
def uint64LE (b : List Nat) : Nat :=
  b.foldr (fun x acc => x + 256 * acc) 0

/-- Go's `int64(u)` conversion of an unsigned 64-bit value. -/
def int64OfUint64 (u : Nat) : Int :=
  if u < 2 ^ 63 then (u : Int) else (u : Int) - 2 ^ 64

/-- The five results of `JournalCtlParser.Parse`.  `bytesRead` is `Int`
because the binary branch returns `int(length)`, which Go computes from a
possibly negative `int64`. -/
structure ParseRet where
  bytesRead : Int
  key : List Nat
  value : List Nat
  final : Bool
  err : Option GoError
deriving DecidableEq, Repr

/-- The bookkeeping shared by all record-returning exits of `Parse`
(journalctl_parser.go:164-176): `scanPos += bytesRead`, then set `needData`
and possibly reset the cursors.  `bytesConsumed` is the value the source adds
to `scanPos` at line 164 (equal to the returned `bytesRead` on these paths,
never negative on a non-panicking run). -/
def parseFinish (t : JournalCtlParser) (s : journalCtlStreamParserBuffer)
    (chunks : Chunks) (ret : ParseRet) (bytesConsumed : Nat) (record : List Nat) :
    Option (ParseRet × JournalCtlParser × Chunks) :=
  let s := { s with scanPos := s.scanPos + bytesConsumed }
  let s :=
    if record.length = 0 then { s with needData := true }
    else if s.readPos = s.scanPos then { s with readPos := 0, scanPos := 0, needData := true }
    else { s with needData := false }
  some (ret, { t with buffer := s }, chunks)

/-- The body of `JournalCtlParser.Parse` after the optional read and the
`readPos += bytesRead` update (journalctl_parser.go:140-176).  `n` is the
byte count returned by the read (0 when no read was performed).  Returns
`none` when the Go code would panic on an out-of-range slice expression. -/
def parseScan (t : JournalCtlParser) (s0 : journalCtlStreamParserBuffer)
    (chunks : Chunks) (n : Nat) : Option (ParseRet × JournalCtlParser × Chunks) :=
  let s := { s0 with readPos := s0.readPos + n }
  match goSlice s.buf s.scanPos s.readPos with
  | none => none
  | some window =>
    let fr := findRecord t.delimiter window
    let br0 := fr.1
    let record0 := fr.2
    if record0 = [NL] then
      -- the final key value pair for the current journal entry has been read
      parseFinish t s chunks ⟨(br0 : Int), [], [], true, none⟩ br0 record0
    else
      match splitN2 record0 EQB with
      | [k, v] =>
        -- a simple KEY=VALUE line
        parseFinish t s chunks ⟨(br0 : Int), k, trimSuffixNL v, false, none⟩ br0 record0
      | _ =>
        -- binary value: the split has a single element, the whole record
        let s := { s with scanPos := s.scanPos + br0 }
        let key := trimSuffixNL record0
        match goSlice s.buf s.scanPos (s.scanPos + 8) with
        | none => none
        | some b =>
          let length := int64OfUint64 (uint64LE b)
          let s := { s with scanPos := s.scanPos + 8 }
          if length < 0 then none
          else
            match goSlice s.buf s.scanPos (s.scanPos + length.toNat) with
            | none => none
            | some record =>
              let s := { s with scanPos := s.scanPos + 1 }
              parseFinish t s chunks ⟨length, key, record, false, none⟩ length.toNat record

/-- `JournalCtlParser.Parse` (journalctl_parser.go:126-177).  Takes the
pending source chunks; returns the five results plus the updated parser and
source, or `none` when the Go code would panic. -/
def Parse (maxRecordSize : Nat) (t : JournalCtlParser) (chunks : Chunks) :
    Option (ParseRet × JournalCtlParser × Chunks) :=
  if t.buffer.needData then
    let r := bufRead maxRecordSize t.buffer chunks
    match r.err with
    | some e => some (⟨(r.n : Int), [], [], false, some e⟩, { t with buffer := r.s }, r.chunks)
    | none => parseScan t r.s r.chunks r.n
  else
    parseScan t t.buffer chunks 0

/-- The sequence of `Parse` results over `n` successive calls (`none` as soon
as any call panics). -/
def parseSeq (maxRecordSize : Nat) : Nat → JournalCtlParser → Chunks → Option (List ParseRet)
  | 0, _, _ => some []
  | Nat.succ k, t, ch =>
    match Parse maxRecordSize t ch with
    | none => none
    | some (r, t2, ch2) =>
      match parseSeq maxRecordSize k t2 ch2 with
      | none => none
      | some rs => some (r :: rs)

/-- The parser state after `n` successive `Parse` calls (`none` on panic). -/
def stateAfter (maxRecordSize : Nat) : Nat → JournalCtlParser → Chunks → Option JournalCtlParser
  | 0, t, _ => some t
  | Nat.succ k, t, ch =>
    match Parse maxRecordSize t ch with
    | none => none
    | some (_, t2, ch2) => stateAfter maxRecordSize k t2 ch2

/-- The RawBuffer cursor relation claimed by the spec:
`0 ≤ scanPos ≤ readPos ≤ capacity`. -/
def cursorInvariant (t : JournalCtlParser) : Bool :=
  decide (t.buffer.scanPos ≤ t.buffer.readPos ∧ t.buffer.readPos ≤ t.buffer.buf.size)

/-- The result of one iteration of the stdout-parsing loop body of
`JournalCtlInput.ParseOutput` (journalctl_input.go:373-410): the records sent
to the output channel, whether the oversized-record condition was logged, and
whether the loop condition `err == nil` lets it continue. -/
structure OutLoopStep where
  emitted : List (List Nat)
  loggedOversize : Bool
  continues : Bool
deriving DecidableEq, Repr

/-- One iteration of `ParseOutput`'s loop body, abstracted over the triple
`(_, record, err)` the configured stream parser returned and over the result
of the `GetRemainingData` accessor (`remaining`): on `io.EOF` the record is
replaced by the remaining data and the loop stops; on `io.ErrShortBuffer` the
condition is logged and `err` is cleared so the loop keeps going; a nonempty
record is emitted. -/
def parseOutputStep (record : List Nat) (err : Option GoError) (remaining : List Nat) :
    OutLoopStep :=
  let p : List Nat × Option GoError × Bool :=
    match err with
    | some .eof => (remaining, some .eof, false)
    | some .shortBuffer => (record, none, true)
    | none => (record, none, false)
  { emitted := if p.1.length > 0 then [p.1] else [],
    loggedOversize := p.2.2,
    continues := p.2.1.isNone }

/-- A JSON value as relevant to `writeToPack`: only string values can supply
the cursor; every other shape leaves it untouched. -/
inductive JsonVal
  | str (s : String)
  | nonstring
deriving DecidableEq, Repr

/-- The result of `json.Unmarshal` on one stdout record: `none` when
unmarshalling fails, otherwise the decoded object as a key/value list in
map-iteration order (keys of a Go map are unique). -/
abbrev JEntry := Option (List (String × JsonVal))

/-- The cursor extraction of `JournalCtlInput.writeToPack`
(journalctl_input.go:286-334): on unmarshal failure the error is logged and
the zero-value cursor `""` is returned; otherwise the object is iterated and
the value of the `__CURSOR` key is recorded when it is a string. -/
def writeToPackCursor (e : JEntry) : String :=
  match e with
  | none => ""
  | some m =>
    m.foldl (fun cursor kv =>
      match kv.2 with
      | .str v => if kv.1 = "__CURSOR" then v else cursor
      | .nonstring => cursor) ""

/-- State of the checkpoint store: the backing file's content (`none` = file
absent), whether `pi.checkpointFile` is already open, and — as a history
variable for stating ordering properties — the sequence of cursors written
so far. -/
structure CheckpointState where
  fileContent : Option String
  handleOpen : Bool
  writes : List String
deriving DecidableEq, Repr

/-- `JournalCtlInput.writeCheckpoint` (journalctl_input.go:107-118): open the
backing file lazily with `O_CREATE|O_TRUNC` on first use, then seek to 0,
truncate to zero length, and write the full cursor text.  File-system errors
are not modelled. -/
def writeCheckpoint (cs : CheckpointState) (cursor : String) : CheckpointState :=
  let cs :=
    if cs.handleOpen then cs
    else { cs with handleOpen := true, fileContent := some "" }
  { cs with fileContent := some cursor, writes := cs.writes ++ [cursor] }

/-- `readCheckpoint` (journalctl_input.go:120-132): read the whole backing
file; absence of the file is surfaced as `none`. -/
def readCheckpoint (cs : CheckpointState) : Option String := cs.fileContent

/-- The supervisor/coordinator state of `JournalCtlInput` relevant to the
dispatch loop: the one-shot duplicate flag `first`, the loaded cursor, the
two failure-classification flags that persist across restart attempts, the
message counter, the entries dispatched to the sink (decoder or router) in
order, the checkpoint store, and the log lines emitted.  Channel and process
plumbing is not modelled. -/
structure CoordState where
  first : Bool
  cursor : String
  drop_cursor : Bool
  bad_matches : Bool
  processMessageCount : Nat
  dispatched : List JEntry
  checkpoint : CheckpointState
  logs : List String
deriving DecidableEq, Repr

/-- The `stdoutChan` case of the `Run` select loop
(journalctl_input.go:224-246): count the message, build the pack and extract
its cursor, discard the pack when the first-entry duplicate check fires
(setting the one-shot flag), otherwise dispatch the pack and then write the
checkpoint. -/
def runStdoutStep (st : CoordState) (e : JEntry) : CoordState :=
  let st := { st with processMessageCount := st.processMessageCount + 1 }
  let cursor := writeToPackCursor e
  if st.first ∧ st.cursor = cursor then
    { st with
      first := false
      logs := st.logs ++ ["ignoring duplicate first message at cursor " ++ cursor] }
  else
    let st := { st with dispatched := st.dispatched ++ [e] }
    { st with checkpoint := writeCheckpoint st.checkpoint cursor }

/-- The dispatch loop over a sequence of stdout records. -/
def runStdoutSteps (st : CoordState) (es : List JEntry) : CoordState :=
  es.foldl runStdoutStep st

/-- Go's `strings.HasPrefix(s, pre)`. -/
def hasPrefixGo (s pre : String) : Bool := pre.data.isPrefixOf s.data

/-- The `stderrChan` case of the `Run` select loop
(journalctl_input.go:248-276): log the line, then classify it: a
seek-failure line marks the cursor for dropping, an add-match failure marks
the content filters permanently bad, and anything else is only logged. -/
def runStderrStep (st : CoordState) (data : String) : CoordState :=
  let st := { st with logs := st.logs ++ [data] }
  if hasPrefixGo data "Failed to seek to cursor" then
    { st with drop_cursor := true }
  else if hasPrefixGo data "Failed to add match" then
    { st with bad_matches := true }
  else st

/-- `JournalCtlInput.Init` (journalctl_input.go:139-189) on the state it
reads and writes: capture `drop_cursor`, fail hard while `bad_matches` is
set, reset the per-session flags, load the persisted cursor when the
checkpoint file exists (`file` is its content, `none` = absent), clear the
cursor when the capture said to drop it, and assemble the `journalctl`
argument list, `--after-cursor` being included only for a nonempty cursor.
Returns the new state and the argument list, or the configuration error.
`ms` stands for the configured content filters, `conf.Matches`. -/
def initPlugin (st : CoordState) (file : Option String) (ms : List String) :
    Except String (CoordState × List String) :=
  let drop := st.drop_cursor
  if st.bad_matches then
    .error ("bad match in [" ++ String.intercalate " " ms ++ "]")
  else
    let st := { st with first := true, drop_cursor := false, bad_matches := false }
    let st :=
      match file with
      | some content => { st with cursor := content }
      | none => st
    let st :=
      if drop then
        { st with
          logs := st.logs ++ ["dropping bad cursor \"" ++ st.cursor ++ "\""]
          cursor := "" }
      else st
    let args :=
      ["-o", "json", "--no-pager", "--all", "--follow"] ++
        (if st.cursor ≠ "" then ["--after-cursor", st.cursor] else []) ++ ms
    .ok (st, args)

/-- C3: round-trip of both field encodings with the data fully buffered.
`Parse` on `FOO=bar\n` yields key `FOO`, value `bar` (trailing newline
excluded, split at the first `=`); on `FOO\n` + 8-byte little-endian
length 3 + `xyz` + `\n` it yields key `FOO`, value `xyz`; and on a lone
newline it yields `final = true` with no field. -/
theorem parse_roundtrip_encodings :
    parseSeq MAX_RECORD_SIZE 1 NewJournalCtlParser [bytes "FOO=bar\n"] =
      some [⟨8, bytes "FOO", bytes "bar", false, none⟩] ∧
    parseSeq MAX_RECORD_SIZE 1 NewJournalCtlParser
        [bytes "FOO\n" ++ [3, 0, 0, 0, 0, 0, 0, 0] ++ bytes "xyz" ++ [10]] =
      some [⟨3, bytes "FOO", bytes "xyz", false, none⟩] ∧
    parseSeq MAX_RECORD_SIZE 1 NewJournalCtlParser [bytes "\n"] =
      some [⟨1, [], [], true, none⟩] := by
  refine ⟨by decide, by decide, by decide⟩

/-- C1: chunk-boundary invariance FAILS.  The byte stream `A=1\nB=2\n`
delivered in one chunk parses to the fields (A,1) and (B,2), but the same
bytes delivered as `A=1\nB` then `=2\n` make the second `Parse` call fall
into the binary branch on the partial line `B`: it returns key `""` and a
66-byte value of stale buffer zeros, the bogus length 0x42 having been read
from bytes beyond `readPos`. -/
theorem parse_chunk_boundary_divergence :
    parseSeq MAX_RECORD_SIZE 2 NewJournalCtlParser [bytes "A=1\nB=2\n"] =
      some [⟨4, bytes "A", bytes "1", false, none⟩,
            ⟨4, bytes "B", bytes "2", false, none⟩] ∧
    parseSeq MAX_RECORD_SIZE 2 NewJournalCtlParser [bytes "A=1\nB", bytes "=2\n"] =
      some [⟨4, bytes "A", bytes "1", false, none⟩,
            ⟨66, [], List.replicate 66 0, false, none⟩] ∧
    parseSeq MAX_RECORD_SIZE 2 NewJournalCtlParser [bytes "A=1\nB=2\n"] ≠
      parseSeq MAX_RECORD_SIZE 2 NewJournalCtlParser [bytes "A=1\nB", bytes "=2\n"] := by
  refine ⟨by decide, by decide, by decide⟩

/-- C2: the partial-binary-data guard is MISSING.  After consuming the bare
key line `FOO\n` while the 8 length bytes are still in a pending chunk,
`Parse` does not report "need more data": it decodes a length from the 8
unread (zero) bytes past `readPos` and returns a field with key `FOO` and an
empty value, `err = none`, instead of returning no field. -/
theorem parse_partial_binary_decoded :
    parseSeq MAX_RECORD_SIZE 1 NewJournalCtlParser
        [bytes "FOO\n", [3, 0, 0, 0, 0, 0, 0, 0] ++ bytes "xyz" ++ [10]] =
      some [⟨0, bytes "FOO", [], false, none⟩] := by decide

/-- C4: the cursor invariant `scanPos ≤ readPos ≤ capacity` is VIOLATED on a
reachable state: after one `Parse` call on the single delivered chunk
`FOO\n`, the binary branch has advanced `scanPos` to 13 while `readPos` is
4. -/
theorem parser_cursor_invariant_violated :
    (stateAfter MAX_RECORD_SIZE 1 NewJournalCtlParser [bytes "FOO\n"]).map
        (fun t => (t.buffer.scanPos, t.buffer.readPos)) = some (13, 4) ∧
    (stateAfter MAX_RECORD_SIZE 1 NewJournalCtlParser [bytes "FOO\n"]).map
        cursorInvariant = some false := by
  refine ⟨by decide, by decide⟩

/-- C5: buffer exceeded is non-fatal.  From any state where the buffer is at
the configured maximum record size, completely full, with nothing consumed
and a read pending (no delimiter was located), `Parse` returns the distinct
`io.ErrShortBuffer` status with no field, both internal cursors are reset to
0 with `needData` still set so the next call reads afresh, and the
`ParseOutput` loop body logs the oversized-record condition and keeps
running. -/
theorem parse_buffer_exceeded_nonfatal (mrs : Nat) (t : JournalCtlParser) (ch : Chunks)
    (record remaining : List Nat)
    (h1 : t.buffer.needData = true) (h2 : t.buffer.scanPos = 0)
    (h3 : t.buffer.buf.size = mrs) (h4 : t.buffer.readPos = mrs) (h5 : 0 < mrs) :
    Parse mrs t ch =
      some (⟨(mrs : Int), [], [], false, some GoError.shortBuffer⟩,
        { t with buffer := { t.buffer with scanPos := 0, readPos := 0 } }, ch) ∧
    ({ t.buffer with scanPos := 0, readPos := 0 } : journalCtlStreamParserBuffer).needData
      = true ∧
    (parseOutputStep record (some GoError.shortBuffer) remaining).continues = true ∧
    (parseOutputStep record (some GoError.shortBuffer) remaining).loggedOversize = true := by
  have hle : t.buffer.buf.size - t.buffer.readPos ≤ 1024 * 4 := by omega
  have hgt : t.buffer.buf.size * 2 > mrs := by omega
  have hlt : mrs < mrs * 2 := by omega
  refine ⟨?_, by simp [h1], by simp [parseOutputStep], by simp [parseOutputStep]⟩
  simp only [Parse, h1, if_true, bufRead, hle, h2, h3, h4, hgt, if_pos, ite_true]
  simp [h3, h4, hlt]

/-- A parser whose buffer is at a maximum record size of 16 and completely
full, as the witness state for the buffer-exceeded theorem. -/
def fullBufferParser : JournalCtlParser :=
  { buffer := { buf := ByteArr.make 16, readPos := 16, scanPos := 0, needData := true }
    delimiter := NL }

/-- Witness: the buffer-exceeded theorem applied at maximum record size 16,
a full 16-byte buffer, and a concrete nonempty record. -/
theorem parse_buffer_exceeded_nonfatal_witness :
    Parse 16 fullBufferParser [] =
      some (⟨(16 : Int), [], [], false, some GoError.shortBuffer⟩,
        { fullBufferParser with
          buffer := { fullBufferParser.buffer with scanPos := 0, readPos := 0 } }, []) ∧
    ({ fullBufferParser.buffer with
        scanPos := 0, readPos := 0 } : journalCtlStreamParserBuffer).needData = true ∧
    (parseOutputStep [1] (some GoError.shortBuffer) [2]).continues = true ∧
    (parseOutputStep [1] (some GoError.shortBuffer) [2]).loggedOversize = true :=
  parse_buffer_exceeded_nonfatal 16 fullBufferParser [] [1] [2] rfl rfl rfl rfl (by decide)

/-- `writeCheckpoint` always leaves the backing file holding exactly the
cursor just written (truncate-and-rewrite, no append). -/
theorem writeCheckpoint_fileContent (cs : CheckpointState) (c : String) :
    (writeCheckpoint cs c).fileContent = some c := by
  unfold writeCheckpoint
  split <;> rfl

/-- `writeCheckpoint` appends exactly one entry to the write history. -/
theorem writeCheckpoint_writes (cs : CheckpointState) (c : String) :
    (writeCheckpoint cs c).writes = cs.writes ++ [c] := by
  unfold writeCheckpoint
  split <;> rfl

/-- Once the one-shot `first` flag is cleared, the dispatch loop dispatches
every stdout record and checkpoints its cursor, in order. -/
theorem runStdoutSteps_all_dispatched (es : List JEntry) (st : CoordState)
    (h : st.first = false) :
    (runStdoutSteps st es).dispatched = st.dispatched ++ es ∧
    (runStdoutSteps st es).checkpoint.writes
      = st.checkpoint.writes ++ es.map writeToPackCursor ∧
    (runStdoutSteps st es).first = false := by
  induction es generalizing st with
  | nil => exact ⟨by simp [runStdoutSteps], by simp [runStdoutSteps], h⟩
  | cons e rest ih =>
    have hstep : runStdoutStep st e =
        { st with
          processMessageCount := st.processMessageCount + 1
          dispatched := st.dispatched ++ [e]
          checkpoint := writeCheckpoint st.checkpoint (writeToPackCursor e) } := by
      simp [runStdoutStep, h]
    have hih := ih (runStdoutStep st e) (by rw [hstep]; exact h)
    rw [runStdoutSteps] at *
    simp only [List.foldl_cons]
    rw [show rest.foldl runStdoutStep (runStdoutStep st e)
      = runStdoutSteps (runStdoutStep st e) rest from rfl] at *
    refine ⟨?_, ?_, hih.2.2⟩
    · rw [hih.1, hstep]; simp
    · rw [hih.2.1, hstep]; simp [writeCheckpoint_writes]

/-- C6: first-entry deduplication.  In a session state with the one-shot
flag set and a loaded cursor equal to the first entry's cursor, that first
entry is discarded — nothing is dispatched and the checkpoint store is left
untouched — the flag is cleared, and afterwards every subsequent entry of
the session is dispatched and its cursor checkpointed, in order. -/
theorem first_entry_dedup (st : CoordState) (e1 : JEntry) (rest : List JEntry)
    (hf : st.first = true) (hc : st.cursor = writeToPackCursor e1)
    (hd : st.dispatched = []) (hw : st.checkpoint.writes = []) :
    (runStdoutStep st e1).dispatched = [] ∧
    (runStdoutStep st e1).checkpoint = st.checkpoint ∧
    (runStdoutStep st e1).first = false ∧
    (runStdoutSteps (runStdoutStep st e1) rest).dispatched = rest ∧
    (runStdoutSteps (runStdoutStep st e1) rest).checkpoint.writes
      = rest.map writeToPackCursor := by
  have hstep : runStdoutStep st e1 =
      { st with
        processMessageCount := st.processMessageCount + 1
        first := false
        logs := st.logs ++ ["ignoring duplicate first message at cursor "
          ++ writeToPackCursor e1] } := by
    simp [runStdoutStep, hf, hc]
  have hrest := runStdoutSteps_all_dispatched rest (runStdoutStep st e1) (by rw [hstep])
  refine ⟨by rw [hstep]; exact hd, by rw [hstep], by rw [hstep], ?_, ?_⟩
  · rw [hrest.1, hstep]; simp [hd]
  · rw [hrest.2.1, hstep]; simp [hw]

/-- A restarted-session coordinator state whose loaded checkpoint cursor is
`cursor-1`. -/
def sessionStart : CoordState :=
  { first := true, cursor := "cursor-1", drop_cursor := false, bad_matches := false
    processMessageCount := 0, dispatched := [], checkpoint := ⟨some "cursor-1", false, []⟩
    logs := [] }

/-- A redelivered first entry carrying the already-checkpointed cursor. -/
def dupEntry : JEntry := some [("__CURSOR", JsonVal.str "cursor-1")]

/-- A fresh entry carrying a new cursor. -/
def nextEntry : JEntry := some [("__CURSOR", JsonVal.str "cursor-2")]

/-- Witness: the first-entry deduplication theorem applied to a session
loaded at `cursor-1` whose first entry repeats `cursor-1` and whose second
entry carries `cursor-2`. -/
theorem first_entry_dedup_witness :
    (runStdoutStep sessionStart dupEntry).dispatched = [] ∧
    (runStdoutStep sessionStart dupEntry).checkpoint = sessionStart.checkpoint ∧
    (runStdoutStep sessionStart dupEntry).first = false ∧
    (runStdoutSteps (runStdoutStep sessionStart dupEntry) [nextEntry]).dispatched
      = [nextEntry] ∧
    (runStdoutSteps (runStdoutStep sessionStart dupEntry) [nextEntry]).checkpoint.writes
      = [nextEntry].map writeToPackCursor :=
  first_entry_dedup sessionStart dupEntry [nextEntry] rfl (by decide) rfl rfl

/-- After a nonempty sequence of checkpoint writes, the file holds the last
cursor written. -/
theorem foldl_writeCheckpoint_content (cursors : List String) (cs : CheckpointState)
    (h : cursors ≠ []) :
    (cursors.foldl writeCheckpoint cs).fileContent = cursors.getLast? := by
  induction cursors generalizing cs with
  | nil => exact absurd rfl h
  | cons c rest ih =>
    cases rest with
    | nil => simp [writeCheckpoint_fileContent]
    | cons c2 rest2 =>
      simp only [List.foldl_cons]
      rw [← List.foldl_cons, ih (writeCheckpoint cs c) (by simp)]
      rfl

/-- C7: checkpoint store round-trip.  Each `writeCheckpoint` truncates the
backing file and rewrites the full cursor text (the file content afterwards
is exactly the cursor written, never an appended tail), so after writing the
cursors `c1..cN` of N dispatched entries, `readCheckpoint` returns exactly
`cN`, the last one. -/
theorem checkpoint_store_roundtrip (cs cs2 : CheckpointState) (c2 : String)
    (cursors : List String) (h : cursors ≠ []) :
    (writeCheckpoint cs2 c2).fileContent = some c2 ∧
    readCheckpoint (cursors.foldl writeCheckpoint cs) = cursors.getLast? := by
  exact ⟨writeCheckpoint_fileContent cs2 c2,
    foldl_writeCheckpoint_content cursors cs h⟩

/-- Witness: the checkpoint round-trip theorem applied to a fresh store and
the write sequence `c1, c2, c3`. -/
theorem checkpoint_store_roundtrip_witness :
    (writeCheckpoint ⟨none, false, []⟩ "c9").fileContent = some "c9" ∧
    readCheckpoint (["c1", "c2", "c3"].foldl writeCheckpoint ⟨none, false, []⟩) =
      ["c1", "c2", "c3"].getLast? :=
  checkpoint_store_roundtrip ⟨none, false, []⟩ ⟨none, false, []⟩ "c9"
    ["c1", "c2", "c3"] (by decide)

/-- C8: invalid-cursor recovery.  A diagnostic line beginning with the
seek-failure signature sets `drop_cursor`, and initialisation from any state
with `drop_cursor` set (and filters not marked bad) logs the dropped cursor,
clears it, and builds the `journalctl` argument list without the
`--after-cursor` flag, whatever checkpoint is persisted. -/
theorem bad_cursor_drop_recovery (st st2 : CoordState) (line : String)
    (file : Option String) (ms : List String)
    (h1 : hasPrefixGo line "Failed to seek to cursor" = true)
    (h2 : st2.drop_cursor = true) (h3 : st2.bad_matches = false) :
    (runStderrStep st line).drop_cursor = true ∧
    (initPlugin st2 file ms).toOption.map (fun p => p.1.cursor) = some "" ∧
    (initPlugin st2 file ms).toOption.map (fun p => p.1.logs) =
      some (st2.logs ++ ["dropping bad cursor \""
        ++ (match file with | some c => c | none => st2.cursor) ++ "\""]) ∧
    (initPlugin st2 file ms).toOption.map (fun p => p.2) =
      some (["-o", "json", "--no-pager", "--all", "--follow"] ++ ms) := by
  refine ⟨?_, ?_, ?_, ?_⟩
  · simp [runStderrStep, h1]
  all_goals
    cases file <;> simp [initPlugin, h2, h3, Except.toOption]

/-- A coordinator state in which a seek failure was observed during the
previous session, with a checkpoint still persisted. -/
def dropState : CoordState :=
  { first := false, cursor := "old-cursor", drop_cursor := true, bad_matches := false
    processMessageCount := 3, dispatched := [], checkpoint := ⟨some "old-cursor", true, []⟩
    logs := [] }

/-- Witness: the invalid-cursor recovery theorem applied to a concrete seek
failure line and a restart with the checkpoint file holding `old-cursor`. -/
theorem bad_cursor_drop_recovery_witness :
    (runStderrStep dropState "Failed to seek to cursor: Invalid argument").drop_cursor
      = true ∧
    (initPlugin dropState (some "old-cursor") ["m1"]).toOption.map (fun p => p.1.cursor)
      = some "" ∧
    (initPlugin dropState (some "old-cursor") ["m1"]).toOption.map (fun p => p.1.logs) =
      some (dropState.logs ++ ["dropping bad cursor \""
        ++ (match (some "old-cursor" : Option String) with
            | some c => c
            | none => dropState.cursor) ++ "\""]) ∧
    (initPlugin dropState (some "old-cursor") ["m1"]).toOption.map (fun p => p.2) =
      some (["-o", "json", "--no-pager", "--all", "--follow"] ++ ["m1"]) :=
  bad_cursor_drop_recovery dropState dropState
    "Failed to seek to cursor: Invalid argument" (some "old-cursor") ["m1"]
    (by decide) rfl rfl

/-- The seek-failure signature is never a prefix of a line that starts with
the add-match signature: the two differ within their first eleven
characters. -/
theorem seek_sig_not_prefix_of_add_sig (t : List Char) :
    ("Failed to seek to cursor".data.isPrefixOf ("Failed to add match".data ++ t))
      = false :=
  rfl

/-- C9: invalid content filters are permanently unrecoverable.  A diagnostic
line beginning with `Failed to add match` sets `bad_matches` (it cannot also
match the seek signature), and from any state with `bad_matches` set, every
initialisation attempt returns the hard configuration error before building
the process arguments — so a restart never re-uses the same filters. -/
theorem bad_matches_unrecoverable (st st2 : CoordState) (line : String)
    (file : Option String) (ms : List String)
    (h1 : hasPrefixGo line "Failed to add match" = true)
    (h2 : st2.bad_matches = true) :
    (runStderrStep st line).bad_matches = true ∧
    initPlugin st2 file ms =
      .error ("bad match in [" ++ String.intercalate " " ms ++ "]") := by
  constructor
  · obtain ⟨t, ht⟩ : ∃ t, "Failed to add match".data ++ t = line.data :=
      List.isPrefixOf_iff_prefix.mp h1
    have hseek : hasPrefixGo line "Failed to seek to cursor" = false := by
      unfold hasPrefixGo
      rw [← ht]
      exact seek_sig_not_prefix_of_add_sig t
    simp [runStderrStep, hseek, h1]
  · simp [initPlugin, h2]

/-- A coordinator state in which an add-match failure was observed. -/
def badMatchState : CoordState :=
  { first := false, cursor := "", drop_cursor := false, bad_matches := true
    processMessageCount := 0, dispatched := [], checkpoint := ⟨none, false, []⟩
    logs := [] }

/-- Witness: the unrecoverable-filters theorem applied to a concrete
add-match failure line and a restart attempt with filters `bogus=1`. -/
theorem bad_matches_unrecoverable_witness :
    (runStderrStep badMatchState
        "Failed to add match \x27bogus=1\x27: Invalid argument").bad_matches = true ∧
    initPlugin badMatchState none ["bogus=1"] =
      .error ("bad match in [" ++ String.intercalate " " ["bogus=1"] ++ "]") :=
  bad_matches_unrecoverable badMatchState badMatchState
    "Failed to add match \x27bogus=1\x27: Invalid argument" none ["bogus=1"]
    (by decide) rfl

/-- C10: the empty-cursor edge case of the first-entry duplicate check.  In
a session whose loaded cursor is the empty string (no persisted checkpoint),
a first record whose pack construction yields an empty cursor — in
particular any record that fails to unmarshal, since `writeToPackCursor
none = ""` — is matched by the duplicate check and silently discarded:
nothing is dispatched, the checkpoint store is untouched, and the one-shot
flag is cleared. -/
theorem empty_cursor_first_entry_discarded (st : CoordState) (e : JEntry)
    (hf : st.first = true) (hc : st.cursor = "") (he : writeToPackCursor e = "") :
    (runStdoutStep st e).dispatched = st.dispatched ∧
    (runStdoutStep st e).checkpoint = st.checkpoint ∧
    (runStdoutStep st e).first = false ∧
    writeToPackCursor none = "" := by
  have hstep : runStdoutStep st e =
      { st with
        processMessageCount := st.processMessageCount + 1
        first := false
        logs := st.logs ++ ["ignoring duplicate first message at cursor "
          ++ writeToPackCursor e] } := by
    simp [runStdoutStep, hf, hc, he]
  exact ⟨by rw [hstep], by rw [hstep], by rw [hstep], rfl⟩

/-- A session started with no persisted checkpoint: the loaded cursor is
empty. -/
def freshSession : CoordState :=
  { first := true, cursor := "", drop_cursor := false, bad_matches := false
    processMessageCount := 0, dispatched := [], checkpoint := ⟨none, false, []⟩
    logs := [] }

/-- Witness: the empty-cursor discard theorem applied to a fresh session
whose first record fails to unmarshal. -/
theorem empty_cursor_first_entry_discarded_witness :
    (runStdoutStep freshSession none).dispatched = freshSession.dispatched ∧
    (runStdoutStep freshSession none).checkpoint = freshSession.checkpoint ∧
    (runStdoutStep freshSession none).first = false ∧
    writeToPackCursor none = "" :=
  empty_cursor_first_entry_discarded freshSession none rfl rfl rfl

end Heka
